import Mathlib

/-!
The manipulation intents of the UR5 pick-and-place node.

A shallow embedding of `src/pick_place/src/pick_place_tutorial.cpp`.

* A C++ `double` (and the `float32` fields of the messages) is modelled by `ℚ`;
  a decimal literal of the source denotes its exact decimal value.
* A `std::vector` is a `List`; `v.resize(n)` is `resize v n`, `v[i] = x` is
  `assignAt v i x`, and an assignment through `v[i].field` is `modifyAt v i`. Where the
  size of the vector comes from outside the program, `v[i] = x` is `assignChecked v i x`,
  and a run that writes out of bounds has no result.
* A ROS message is a structure whose default value is the one its generated
  C++ constructor produces: numbers zero, strings and vectors empty.
* The calls the program makes on ROS and on the MoveIt interfaces are recorded,
  in order, in a trace of `Call`s.
-/

namespace PickPlace

/-! ## std::vector -/

/-- The vector after `v.resize(n)`: the first `n` elements are kept, and missing ones are
value-initialised. -/
def resize {α : Type} [Inhabited α] (v : List α) (n : Nat) : List α :=
  v.take n ++ List.replicate (n - v.length) default

/-- The vector after a write through a reference to `v[i]`, for `i` in bounds: used where a
`resize` just before makes `i` a valid index. -/
def modifyAt {α : Type} : List α → Nat → (α → α) → List α
  | [], _, _ => []
  | a :: as, 0, f => f a :: as
  | a :: as, i + 1, f => a :: modifyAt as i f

/-- The vector after `v[i] = x`, for `i` in bounds: used where a `resize` just before makes
`i` a valid index. -/
def assignAt {α : Type} (v : List α) (i : Nat) (x : α) : List α :=
  modifyAt v i (fun _ => x)

/-- The vector after `v[i] = x` on a vector whose size the program does not control: `none`
when `i` is not a valid index, where `operator[]` has undefined behaviour. -/
def assignChecked {α : Type} (v : List α) (i : Nat) (x : α) : Option (List α) :=
  if i < v.length then some (assignAt v i x) else none

/-! ## ROS time -/

/-- The `ros::Time` of a message header: seconds and nanoseconds. -/
structure Time where
  sec : Nat := 0
  nsec : Nat := 0
deriving DecidableEq, Repr

/-- The `ros::Duration`: signed seconds and nanoseconds. -/
structure Duration where
  sec : Int := 0
  nsec : Int := 0
deriving DecidableEq, Repr

instance : Inhabited Time := ⟨{}⟩
instance : Inhabited Duration := ⟨{}⟩

/-- The constructor `ros::Duration(double d)`: whole seconds rounded down, the rest in
nanoseconds rounded to nearest, a full second of nanoseconds carried over. -/
def Duration.fromSec (d : ℚ) : Duration :=
  let sec : Int := ⌊d⌋
  let nsec : Int := round ((d - sec) * 1000000000)
  { sec := sec + nsec / 1000000000, nsec := nsec % 1000000000 }

/-- The length of a duration in seconds (`ros::Duration::toSec`). -/
def Duration.toSec (d : Duration) : ℚ :=
  d.sec + d.nsec / 1000000000

/-! ## Messages -/

/-- The message `std_msgs/Header`. -/
structure Header where
  seq : Nat := 0
  stamp : Time := {}
  frame_id : String := ""
deriving DecidableEq, Repr

instance : Inhabited Header := ⟨{}⟩

/-- The message `trajectory_msgs/JointTrajectoryPoint`. -/
structure JointTrajectoryPoint where
  positions : List ℚ := []
  velocities : List ℚ := []
  accelerations : List ℚ := []
  effort : List ℚ := []
  time_from_start : Duration := {}
deriving DecidableEq, Repr

instance : Inhabited JointTrajectoryPoint := ⟨{}⟩

/-- The message `trajectory_msgs/JointTrajectory`. -/
structure JointTrajectory where
  header : Header := {}
  joint_names : List String := []
  points : List JointTrajectoryPoint := []
deriving DecidableEq, Repr

instance : Inhabited JointTrajectory := ⟨{}⟩

/-! ## The gripper postures -/

/-- The posture after `openGripper(posture)`. -/
def openGripper (posture : JointTrajectory) : JointTrajectory :=
  let posture := { posture with joint_names := resize posture.joint_names 1 }
  let posture := { posture with
    joint_names := assignAt posture.joint_names 0 "gripper_finger1_joint" }
  let posture := { posture with points := resize posture.points 1 }
  let posture := { posture with
    points := modifyAt posture.points 0 fun pt => { pt with positions := resize pt.positions 1 } }
  let posture := { posture with
    points := modifyAt posture.points 0 fun pt =>
      { pt with positions := assignAt pt.positions 0 0.00 } }
  { posture with
    points := modifyAt posture.points 0 fun pt =>
      { pt with time_from_start := Duration.fromSec 2.5 } }

/-- The posture after `closedGripper(posture)`. -/
def closedGripper (posture : JointTrajectory) : JointTrajectory :=
  let posture := { posture with joint_names := resize posture.joint_names 1 }
  let posture := { posture with
    joint_names := assignAt posture.joint_names 0 "gripper_finger1_joint" }
  let posture := { posture with points := resize posture.points 1 }
  let posture := { posture with
    points := modifyAt posture.points 0 fun pt => { pt with positions := resize pt.positions 1 } }
  let posture := { posture with
    points := modifyAt posture.points 0 fun pt =>
      { pt with positions := assignAt pt.positions 0 0.10 } }
  { posture with
    points := modifyAt posture.points 0 fun pt =>
      { pt with time_from_start := Duration.fromSec 2.5 } }

/-! ## Geometry and MoveIt messages -/

/-- The message `geometry_msgs/Vector3`. -/
structure Vector3 where
  x : ℚ := 0
  y : ℚ := 0
  z : ℚ := 0
deriving DecidableEq, Repr

/-- The message `geometry_msgs/Point`. -/
structure Point where
  x : ℚ := 0
  y : ℚ := 0
  z : ℚ := 0
deriving DecidableEq, Repr

/-- The message `geometry_msgs/Quaternion`. -/
structure Quaternion where
  x : ℚ := 0
  y : ℚ := 0
  z : ℚ := 0
  w : ℚ := 0
deriving DecidableEq, Repr

/-- The message `geometry_msgs/Pose`. -/
structure Pose where
  position : Point := {}
  orientation : Quaternion := {}
deriving DecidableEq, Repr

/-- The message `geometry_msgs/PoseStamped`. -/
structure PoseStamped where
  header : Header := {}
  pose : Pose := {}
deriving DecidableEq, Repr

/-- The message `geometry_msgs/Vector3Stamped`. -/
structure Vector3Stamped where
  header : Header := {}
  vector : Vector3 := {}
deriving DecidableEq, Repr

/-- The message `moveit_msgs/GripperTranslation`: the approach or retreat motion of a grasp
or of a place location. -/
structure GripperTranslation where
  direction : Vector3Stamped := {}
  desired_distance : ℚ := 0
  min_distance : ℚ := 0
deriving DecidableEq, Repr

/-- The message `moveit_msgs/Grasp`. -/
structure Grasp where
  id : String := ""
  pre_grasp_posture : JointTrajectory := {}
  grasp_posture : JointTrajectory := {}
  grasp_pose : PoseStamped := {}
  grasp_quality : ℚ := 0
  pre_grasp_approach : GripperTranslation := {}
  post_grasp_retreat : GripperTranslation := {}
  post_place_retreat : GripperTranslation := {}
  max_contact_force : ℚ := 0
  allowed_touch_objects : List String := []
deriving DecidableEq, Repr

/-- The message `moveit_msgs/PlaceLocation`. -/
structure PlaceLocation where
  id : String := ""
  post_place_posture : JointTrajectory := {}
  place_pose : PoseStamped := {}
  quality : ℚ := 0
  pre_place_approach : GripperTranslation := {}
  post_place_retreat : GripperTranslation := {}
  allowed_touch_objects : List String := []
deriving DecidableEq, Repr

/-- The message `shape_msgs/SolidPrimitive`. -/
structure SolidPrimitive where
  type : Nat := 0
  dimensions : List ℚ := []
deriving DecidableEq, Repr

/-- The constant `shape_msgs::SolidPrimitive::BOX`. -/
def SolidPrimitive.BOX : Nat := 1

/-- The message `moveit_msgs/CollisionObject`, without the mesh, plane and subframe
vectors, which the program leaves empty. -/
structure CollisionObject where
  header : Header := {}
  id : String := ""
  primitives : List SolidPrimitive := []
  primitive_poses : List Pose := []
  operation : Nat := 0
deriving DecidableEq, Repr

/-- The constant `moveit_msgs::CollisionObject::ADD`. -/
def CollisionObject.ADD : Nat := 0

instance : Inhabited Vector3 := ⟨{}⟩
instance : Inhabited Point := ⟨{}⟩
instance : Inhabited Quaternion := ⟨{}⟩
instance : Inhabited Pose := ⟨{}⟩
instance : Inhabited PoseStamped := ⟨{}⟩
instance : Inhabited Vector3Stamped := ⟨{}⟩
instance : Inhabited GripperTranslation := ⟨{}⟩
instance : Inhabited Grasp := ⟨{}⟩
instance : Inhabited PlaceLocation := ⟨{}⟩
instance : Inhabited SolidPrimitive := ⟨{}⟩
instance : Inhabited CollisionObject := ⟨{}⟩

/-! ## The outside world -/

/-- What the run takes from outside the program. -/
structure Env where
  /-- The `double` value of `2 * M_PI`, the constant `tau`. -/
  tau : ℚ
  /-- The message `tf2::toMsg` gives for the quaternion `setRPY(roll, pitch, yaw)`. -/
  setRPY : ℚ → ℚ → ℚ → Quaternion
  /-- The joint values `copyJointGroupPositions` reads from the current state of group
  `"arm"`. -/
  jointGroupPositions : List ℚ
  /-- Whether `group.plan` in `ready` returns `SUCCESS`. -/
  planSucceeds : Bool

/-- A call the program makes on ROS or on a MoveIt interface. -/
inductive Call where
  | rosInit (name : String)
  | nodeHandle
  | spinnerStart (threads : Nat)
  | sleep (seconds : ℚ)
  | planningSceneInterface
  | moveGroupInterface (group : String)
  | setPlanningTime (seconds : ℚ)
  | setMaxVelocityScalingFactor (factor : ℚ)
  | setMaxAccelerationScalingFactor (factor : ℚ)
  | setEndEffectorLink (link : String)
  | applyCollisionObjects (objects : List CollisionObject)
  | getCurrentState
  | getJointModelGroup (group : String)
  | copyJointGroupPositions
  | setJointValueTarget (positions : List ℚ)
  | plan
  | rosInfoNamed (name : String) (format : String)
  | move
  | setSupportSurfaceName (name : String)
  | pick (object : String) (grasps : List Grasp)
  | place (object : String) (locations : List PlaceLocation)
  | shutdown
deriving DecidableEq, Repr

/-- The calls made so far, oldest first. -/
abbrev Trace := List Call

/-! ## The program -/

/-- The vector `grasps` of `pick` at the time it is passed to `move_group.pick`. -/
def pickGrasps : List Grasp :=
  let grasps : List Grasp := []
  let grasps := resize grasps 1
  let grasps := modifyAt grasps 0 fun g =>
    { g with grasp_pose.header.frame_id := "base_link" }
  let grasps := modifyAt grasps 0 fun g => { g with grasp_pose.pose.orientation.x := -0.500 }
  let grasps := modifyAt grasps 0 fun g => { g with grasp_pose.pose.orientation.y := 0.50 }
  let grasps := modifyAt grasps 0 fun g => { g with grasp_pose.pose.orientation.z := 0.50 }
  let grasps := modifyAt grasps 0 fun g => { g with grasp_pose.pose.orientation.w := 0.50 }
  let grasps := modifyAt grasps 0 fun g => { g with grasp_pose.pose.position.x := 0.406 }
  let grasps := modifyAt grasps 0 fun g => { g with grasp_pose.pose.position.y := -0.001 }
  let grasps := modifyAt grasps 0 fun g => { g with grasp_pose.pose.position.z := 0.15 }
  let grasps := modifyAt grasps 0 fun g =>
    { g with pre_grasp_approach.direction.header.frame_id := "base_link" }
  let grasps := modifyAt grasps 0 fun g =>
    { g with pre_grasp_approach.direction.vector.z := -1.0 }
  let grasps := modifyAt grasps 0 fun g => { g with pre_grasp_approach.min_distance := 0.1 }
  let grasps := modifyAt grasps 0 fun g =>
    { g with pre_grasp_approach.desired_distance := 0.15 }
  let grasps := modifyAt grasps 0 fun g =>
    { g with post_grasp_retreat.direction.header.frame_id := "base_link" }
  let grasps := modifyAt grasps 0 fun g =>
    { g with post_grasp_retreat.direction.vector.z := 1.0 }
  let grasps := modifyAt grasps 0 fun g => { g with post_grasp_retreat.min_distance := 0.10 }
  let grasps := modifyAt grasps 0 fun g =>
    { g with post_grasp_retreat.desired_distance := 0.20 }
  let grasps := modifyAt grasps 0 fun g =>
    { g with pre_grasp_posture := openGripper g.pre_grasp_posture }
  modifyAt grasps 0 fun g => { g with grasp_posture := closedGripper g.grasp_posture }

/-- The trace after `pick(move_group)`. -/
def pick (trace : Trace) : Trace :=
  let grasps := pickGrasps
  let trace := trace ++ [Call.setSupportSurfaceName "mesa_general_sola.dae_0"]
  trace ++ [Call.pick "object" grasps]

/-- The vector `place_location` of `place` at the time it is passed to `group.place`. -/
def placeLocations (env : Env) : List PlaceLocation :=
  let place_location : List PlaceLocation := []
  let place_location := resize place_location 1
  let place_location := modifyAt place_location 0 fun l =>
    { l with place_pose.header.frame_id := "wrist_3_link" }
  let orientation := env.setRPY 0 0 (env.tau / 4)
  let place_location := modifyAt place_location 0 fun l =>
    { l with place_pose.pose.orientation := orientation }
  let place_location := modifyAt place_location 0 fun l =>
    { l with place_pose.pose.position.x := 0 }
  let place_location := modifyAt place_location 0 fun l =>
    { l with place_pose.pose.position.y := 0.5 }
  let place_location := modifyAt place_location 0 fun l =>
    { l with place_pose.pose.position.z := 0.5 }
  let place_location := modifyAt place_location 0 fun l =>
    { l with pre_place_approach.direction.header.frame_id := "wrist_3_link" }
  let place_location := modifyAt place_location 0 fun l =>
    { l with pre_place_approach.direction.vector.z := -1.0 }
  let place_location := modifyAt place_location 0 fun l =>
    { l with pre_place_approach.min_distance := 0.095 }
  let place_location := modifyAt place_location 0 fun l =>
    { l with pre_place_approach.desired_distance := 0.115 }
  let place_location := modifyAt place_location 0 fun l =>
    { l with post_place_retreat.direction.header.frame_id := "wrist_3_link" }
  let place_location := modifyAt place_location 0 fun l =>
    { l with post_place_retreat.direction.vector.y := -1.0 }
  let place_location := modifyAt place_location 0 fun l =>
    { l with post_place_retreat.min_distance := 0.1 }
  let place_location := modifyAt place_location 0 fun l =>
    { l with post_place_retreat.desired_distance := 0.25 }
  modifyAt place_location 0 fun l =>
    { l with post_place_posture := openGripper l.post_place_posture }

/-- The trace after `place(group)`. -/
def place (env : Env) (trace : Trace) : Trace :=
  let place_location := placeLocations env
  let trace := trace ++ [Call.setSupportSurfaceName "table2"]
  trace ++ [Call.place "object" place_location]

/-- The vector `collision_objects` of `addCollisionObjects` at the time it is passed to
`applyCollisionObjects`. -/
def collisionObjects : List CollisionObject :=
  let collision_objects : List CollisionObject := []
  let collision_objects := resize collision_objects 1
  let collision_objects := modifyAt collision_objects 0 fun o =>
    { o with header.frame_id := "world" }
  let collision_objects := modifyAt collision_objects 0 fun o => { o with id := "object" }
  let collision_objects := modifyAt collision_objects 0 fun o =>
    { o with primitives := resize o.primitives 1 }
  let collision_objects := modifyAt collision_objects 0 fun o =>
    { o with primitives := modifyAt o.primitives 0 fun p =>
        { p with type := SolidPrimitive.BOX } }
  let collision_objects := modifyAt collision_objects 0 fun o =>
    { o with primitives := modifyAt o.primitives 0 fun p =>
        { p with dimensions := resize p.dimensions 3 } }
  let collision_objects := modifyAt collision_objects 0 fun o =>
    { o with primitives := modifyAt o.primitives 0 fun p =>
        { p with dimensions := assignAt p.dimensions 0 0.05 } }
  let collision_objects := modifyAt collision_objects 0 fun o =>
    { o with primitives := modifyAt o.primitives 0 fun p =>
        { p with dimensions := assignAt p.dimensions 1 0.05 } }
  let collision_objects := modifyAt collision_objects 0 fun o =>
    { o with primitives := modifyAt o.primitives 0 fun p =>
        { p with dimensions := assignAt p.dimensions 2 0.05 } }
  let collision_objects := modifyAt collision_objects 0 fun o =>
    { o with primitive_poses := resize o.primitive_poses 1 }
  let collision_objects := modifyAt collision_objects 0 fun o =>
    { o with primitive_poses := modifyAt o.primitive_poses 0 fun p =>
        { p with position.x := 0.4 } }
  let collision_objects := modifyAt collision_objects 0 fun o =>
    { o with primitive_poses := modifyAt o.primitive_poses 0 fun p =>
        { p with position.y := 0.0 } }
  let collision_objects := modifyAt collision_objects 0 fun o =>
    { o with primitive_poses := modifyAt o.primitive_poses 0 fun p =>
        { p with position.z := 0.025 } }
  let collision_objects := modifyAt collision_objects 0 fun o =>
    { o with primitive_poses := modifyAt o.primitive_poses 0 fun p =>
        { p with orientation.w := 1.0 } }
  modifyAt collision_objects 0 fun o => { o with operation := CollisionObject.ADD }

/-- The trace after `addCollisionObjects(planning_scene_interface)`. -/
def addCollisionObjects (trace : Trace) : Trace :=
  trace ++ [Call.applyCollisionObjects collisionObjects]

/-- The trace after `ready(group)`; `none` when the run has undefined behaviour, which is
when group `"arm"` has fewer than the six joints that are written. -/
def ready (env : Env) (trace : Trace) : Option Trace := do
  let trace := trace ++ [Call.getCurrentState]
  let trace := trace ++ [Call.getCurrentState, Call.getJointModelGroup "arm"]
  let trace := trace ++ [Call.copyJointGroupPositions]
  let joint_group_positions := env.jointGroupPositions
  let joint_group_positions ← assignChecked joint_group_positions 0 0.0
  let joint_group_positions ← assignChecked joint_group_positions 1 (-env.tau / 4)
  let joint_group_positions ← assignChecked joint_group_positions 2 (env.tau / 4)
  let joint_group_positions ← assignChecked joint_group_positions 3 (-env.tau / 4)
  let joint_group_positions ← assignChecked joint_group_positions 4 (-env.tau / 4)
  let joint_group_positions ← assignChecked joint_group_positions 5 0.0
  let trace := trace ++ [Call.setJointValueTarget joint_group_positions]
  let trace := trace ++ [Call.plan]
  let success := env.planSucceeds
  let trace := trace ++
    [Call.rosInfoNamed "Visualizing plan (joint space Ready) %s" (if success then "" else "FAILED")]
  pure (trace ++ [Call.move])

/-- The trace of a run of `main` and its exit code; `none` when the run has undefined
behaviour. -/
def main (env : Env) : Option (Trace × Int) := do
  let trace : Trace := []
  let trace := trace ++ [Call.rosInit "ur5_arm_pick_place"]
  let trace := trace ++ [Call.nodeHandle]
  let trace := trace ++ [Call.spinnerStart 1]
  let trace := trace ++ [Call.sleep 1.0]
  let trace := trace ++ [Call.planningSceneInterface]
  let trace := trace ++ [Call.moveGroupInterface "arm"]
  let trace := trace ++ [Call.setPlanningTime 10.0]
  let trace := trace ++ [Call.setMaxVelocityScalingFactor 0.05]
  let trace := trace ++ [Call.setMaxAccelerationScalingFactor 0.05]
  let trace := trace ++ [Call.setEndEffectorLink "ee_link"]
  let trace := addCollisionObjects trace
  let trace := trace ++ [Call.sleep 1.0]
  let trace ← ready env trace
  let trace := trace ++ [Call.sleep 2.0]
  let trace := pick trace
  let trace := trace ++ [Call.sleep 1.0]
  let trace := trace ++ [Call.shutdown]
  pure (trace, 0)

/-! ## Properties of the data model -/

/-- The squared Euclidean norm of a direction vector. -/
def Vector3.normSq (v : Vector3) : ℚ :=
  v.x ^ 2 + v.y ^ 2 + v.z ^ 2

/-- The squared norm of a quaternion. -/
def Quaternion.normSq (q : Quaternion) : ℚ :=
  q.x ^ 2 + q.y ^ 2 + q.z ^ 2 + q.w ^ 2

/-- The approach and retreat records the program fills in: those of the grasp of `pick`,
then those of the place location of `place`. -/
def directedApproaches (env : Env) : List GripperTranslation :=
  (pickGrasps.map fun g => [g.pre_grasp_approach, g.post_grasp_retreat]).flatten ++
    ((placeLocations env).map fun l => [l.pre_place_approach, l.post_place_retreat]).flatten

/-- A run in which tau is 6.28, `setRPY` gives the identity rotation, the arm has six joints
at zero and planning succeeds. -/
def sampleEnv : Env :=
  { tau := 6.28
    setRPY := fun _ _ _ => { w := 1 }
    jointGroupPositions := [0, 0, 0, 0, 0, 0]
    planSucceeds := true }

/-- Whether a call asks the planning service to change the scene, to plan or to move. -/
def Call.isPlanningRequest : Call → Bool
  | Call.applyCollisionObjects _ => true
  | Call.plan => true
  | Call.move => true
  | Call.pick _ _ => true
  | Call.place _ _ => true
  | _ => false

/-- Whether a call submits a place request. -/
def Call.isPlace : Call → Bool
  | Call.place _ _ => true
  | _ => false

/-! ## Lemmas on the embedding -/

theorem resize_one {α : Type} [Inhabited α] (v : List α) : resize v 1 = [v.headD default] := by
  cases v with
  | nil => rfl
  | cons a as => simp [resize]

theorem fromSec_two_and_a_half : Duration.fromSec 2.5 = { sec := 2, nsec := 500000000 } := by
  have h1 : ⌊(2.5 : ℚ)⌋ = 2 := by
    rw [Int.floor_eq_iff]; norm_num
  have h2 : round (((2.5 : ℚ) - (2 : ℤ)) * 1000000000) = 500000000 := by
    have h : ((2.5 : ℚ) - (2 : ℤ)) * 1000000000 = ((500000000 : ℤ) : ℚ) := by norm_num
    rw [h, round_intCast]
  simp only [Duration.fromSec, h1, h2]
  norm_num

theorem openGripper_eq (p : JointTrajectory) :
    openGripper p =
      { header := p.header
        joint_names := ["gripper_finger1_joint"]
        points := [{ p.points.headD default with
                     positions := [0.00]
                     time_from_start := Duration.fromSec 2.5 }] } := by
  simp only [openGripper, resize_one, modifyAt, assignAt]

theorem closedGripper_eq (p : JointTrajectory) :
    closedGripper p =
      { header := p.header
        joint_names := ["gripper_finger1_joint"]
        points := [{ p.points.headD default with
                     positions := [0.10]
                     time_from_start := Duration.fromSec 2.5 }] } := by
  simp only [closedGripper, resize_one, modifyAt, assignAt]

theorem pickGrasps_eq :
    pickGrasps =
      [{ pre_grasp_posture := openGripper default
         grasp_posture := closedGripper default
         grasp_pose :=
           { header := { frame_id := "base_link" }
             pose := { position := { x := 0.406, y := -0.001, z := 0.15 }
                       orientation := { x := -0.500, y := 0.50, z := 0.50, w := 0.50 } } }
         pre_grasp_approach :=
           { direction := { header := { frame_id := "base_link" }, vector := { z := -1.0 } }
             min_distance := 0.1
             desired_distance := 0.15 }
         post_grasp_retreat :=
           { direction := { header := { frame_id := "base_link" }, vector := { z := 1.0 } }
             min_distance := 0.10
             desired_distance := 0.20 } }] := rfl

theorem placeLocations_eq (env : Env) :
    placeLocations env =
      [{ post_place_posture := openGripper default
         place_pose :=
           { header := { frame_id := "wrist_3_link" }
             pose := { position := { x := 0, y := 0.5, z := 0.5 }
                       orientation := env.setRPY 0 0 (env.tau / 4) } }
         pre_place_approach :=
           { direction := { header := { frame_id := "wrist_3_link" }, vector := { z := -1.0 } }
             min_distance := 0.095
             desired_distance := 0.115 }
         post_place_retreat :=
           { direction := { header := { frame_id := "wrist_3_link" }, vector := { y := -1.0 } }
             min_distance := 0.1
             desired_distance := 0.25 } }] := rfl

theorem collisionObjects_eq :
    collisionObjects =
      [{ header := { frame_id := "world" }
         id := "object"
         primitives := [{ type := SolidPrimitive.BOX, dimensions := [0.05, 0.05, 0.05] }]
         primitive_poses :=
           [{ position := { x := 0.4, y := 0.0, z := 0.025 }, orientation := { w := 1.0 } }]
         operation := CollisionObject.ADD }] := rfl

theorem pick_eq (trace : Trace) :
    pick trace =
      trace ++ [Call.setSupportSurfaceName "mesa_general_sola.dae_0",
                Call.pick "object" pickGrasps] := by
  simp [pick]

theorem place_eq (env : Env) (trace : Trace) :
    place env trace =
      trace ++ [Call.setSupportSurfaceName "table2",
                Call.place "object" (placeLocations env)] := by
  simp [place]

theorem directedApproaches_eq (env : Env) :
    directedApproaches env =
      [{ direction := { header := { frame_id := "base_link" }, vector := { z := -1.0 } }
         min_distance := 0.1
         desired_distance := 0.15 },
       { direction := { header := { frame_id := "base_link" }, vector := { z := 1.0 } }
         min_distance := 0.10
         desired_distance := 0.20 },
       { direction := { header := { frame_id := "wrist_3_link" }, vector := { z := -1.0 } }
         min_distance := 0.095
         desired_distance := 0.115 },
       { direction := { header := { frame_id := "wrist_3_link" }, vector := { y := -1.0 } }
         min_distance := 0.1
         desired_distance := 0.25 }] := rfl

theorem length_modifyAt {α : Type} (v : List α) (i : Nat) (f : α → α) :
    (modifyAt v i f).length = v.length := by
  induction v generalizing i with
  | nil => rfl
  | cons a as ih =>
    cases i with
    | zero => rfl
    | succ i => simp [modifyAt, ih]

theorem assignChecked_of_lt {α : Type} (v : List α) (i : Nat) (x : α) (h : i < v.length) :
    assignChecked v i x = some (assignAt v i x) := by
  simp [assignChecked, h]

theorem assignChecked_of_le {α : Type} (v : List α) (i : Nat) (x : α) (h : v.length ≤ i) :
    assignChecked v i x = none := by
  simp [assignChecked, h]

theorem length_assignAt {α : Type} (v : List α) (i : Nat) (x : α) :
    (assignAt v i x).length = v.length :=
  length_modifyAt v i _

theorem ready_eq (env : Env) (trace : Trace) (h : 6 ≤ env.jointGroupPositions.length) :
    ready env trace =
      some (trace ++
        [Call.getCurrentState, Call.getCurrentState, Call.getJointModelGroup "arm",
         Call.copyJointGroupPositions,
         Call.setJointValueTarget
           (assignAt (assignAt (assignAt (assignAt (assignAt (assignAt env.jointGroupPositions
             0 0.0) 1 (-env.tau / 4)) 2 (env.tau / 4)) 3 (-env.tau / 4)) 4 (-env.tau / 4)) 5 0.0),
         Call.plan,
         Call.rosInfoNamed "Visualizing plan (joint space Ready) %s"
           (if env.planSucceeds then "" else "FAILED"),
         Call.move]) := by
  simp only [ready, bind, Option.bind, pure]
  rw [assignChecked_of_lt _ 0 _ (by omega)]
  simp only []
  rw [assignChecked_of_lt _ 1 _ (by simp only [length_assignAt]; omega)]
  simp only []
  rw [assignChecked_of_lt _ 2 _ (by simp only [length_assignAt]; omega)]
  simp only []
  rw [assignChecked_of_lt _ 3 _ (by simp only [length_assignAt]; omega)]
  simp only []
  rw [assignChecked_of_lt _ 4 _ (by simp only [length_assignAt]; omega)]
  simp only []
  rw [assignChecked_of_lt _ 5 _ (by simp only [length_assignAt]; omega)]
  simp

theorem main_eq (env : Env) (h : 6 ≤ env.jointGroupPositions.length) :
    main env = some
      ([Call.rosInit "ur5_arm_pick_place", Call.nodeHandle, Call.spinnerStart 1, Call.sleep 1.0,
        Call.planningSceneInterface, Call.moveGroupInterface "arm", Call.setPlanningTime 10.0,
        Call.setMaxVelocityScalingFactor 0.05, Call.setMaxAccelerationScalingFactor 0.05,
        Call.setEndEffectorLink "ee_link",
        Call.applyCollisionObjects collisionObjects,
        Call.sleep 1.0,
        Call.getCurrentState, Call.getCurrentState, Call.getJointModelGroup "arm",
        Call.copyJointGroupPositions,
        Call.setJointValueTarget
          (assignAt (assignAt (assignAt (assignAt (assignAt (assignAt env.jointGroupPositions
            0 0.0) 1 (-env.tau / 4)) 2 (env.tau / 4)) 3 (-env.tau / 4)) 4 (-env.tau / 4)) 5 0.0),
        Call.plan,
        Call.rosInfoNamed "Visualizing plan (joint space Ready) %s"
          (if env.planSucceeds then "" else "FAILED"),
        Call.move,
        Call.sleep 2.0,
        Call.setSupportSurfaceName "mesa_general_sola.dae_0",
        Call.pick "object" pickGrasps,
        Call.sleep 1.0,
        Call.shutdown], 0) := by
  simp only [main, bind, Option.bind, pure]
  rw [ready_eq env _ h]
  simp [addCollisionObjects, pick_eq]

theorem ready_undefined (env : Env) (trace : Trace) (h : env.jointGroupPositions.length < 6) :
    ready env trace = none := by
  simp only [ready, bind, Option.bind, pure]
  by_cases h0 : 0 < env.jointGroupPositions.length
  · rw [assignChecked_of_lt _ 0 _ h0]
    simp only []
    by_cases h1 : 1 < env.jointGroupPositions.length
    · rw [assignChecked_of_lt _ 1 _ (by simp only [length_assignAt]; omega)]
      simp only []
      by_cases h2 : 2 < env.jointGroupPositions.length
      · rw [assignChecked_of_lt _ 2 _ (by simp only [length_assignAt]; omega)]
        simp only []
        by_cases h3 : 3 < env.jointGroupPositions.length
        · rw [assignChecked_of_lt _ 3 _ (by simp only [length_assignAt]; omega)]
          simp only []
          by_cases h4 : 4 < env.jointGroupPositions.length
          · rw [assignChecked_of_lt _ 4 _ (by simp only [length_assignAt]; omega)]
            simp only []
            rw [assignChecked_of_le _ 5 _ (by simp only [length_assignAt]; omega)]
          · rw [assignChecked_of_le _ 4 _ (by simp only [length_assignAt]; omega)]
        · rw [assignChecked_of_le _ 3 _ (by simp only [length_assignAt]; omega)]
      · rw [assignChecked_of_le _ 2 _ (by simp only [length_assignAt]; omega)]
    · rw [assignChecked_of_le _ 1 _ (by simp only [length_assignAt]; omega)]
  · rw [assignChecked_of_le _ 0 _ (by omega)]

/-! ## The claims -/

/-- C1: `pick` assembles one grasp and submits it, and in this grasp the pre-grasp posture
equals what `openGripper` makes of a default `JointTrajectory` and the grasp posture equals
what `closedGripper` makes of a default `JointTrajectory`. -/
theorem pick_postures_from_gripper_helpers :
    pickGrasps.map (fun g => g.pre_grasp_posture) = [openGripper default] ∧
    pickGrasps.map (fun g => g.grasp_posture) = [closedGripper default] ∧
    ∀ trace : Trace, pick trace =
      trace ++ [Call.setSupportSurfaceName "mesa_general_sola.dae_0",
                Call.pick "object" pickGrasps] := by
  refine ⟨?_, ?_, pick_eq⟩
  · rw [pickGrasps_eq]; rfl
  · rw [pickGrasps_eq]; rfl

/-- C2: `place` assembles one place location, and its post-place posture equals what
`openGripper` makes of a default `JointTrajectory`. -/
theorem place_posture_from_openGripper (env : Env) :
    (placeLocations env).map (fun l => l.post_place_posture) = [openGripper default] ∧
    ∀ trace : Trace, place env trace =
      trace ++ [Call.setSupportSurfaceName "table2",
                Call.place "object" (placeLocations env)] := by
  refine ⟨?_, place_eq env⟩
  rw [placeLocations_eq]; rfl

/-- C3: `pick` submits exactly one grasp, for the object `"object"`; its grasp pose is at
(0.406, -0.001, 0.15), its pre-grasp approach has direction (0, 0, -1), minimal distance 0.1
and desired distance 0.15, and its post-grasp retreat has direction (0, 0, 1), minimal
distance 0.10 and desired distance 0.20. -/
theorem pick_grasp_constants :
    pickGrasps.length = 1 ∧
    pickGrasps.map (fun g => g.grasp_pose.pose.position) =
      [{ x := 0.406, y := -0.001, z := 0.15 }] ∧
    pickGrasps.map (fun g => g.pre_grasp_approach.direction.vector) =
      [{ x := 0, y := 0, z := -1 }] ∧
    pickGrasps.map (fun g => g.pre_grasp_approach.min_distance) = [0.1] ∧
    pickGrasps.map (fun g => g.pre_grasp_approach.desired_distance) = [0.15] ∧
    pickGrasps.map (fun g => g.post_grasp_retreat.direction.vector) =
      [{ x := 0, y := 0, z := 1 }] ∧
    pickGrasps.map (fun g => g.post_grasp_retreat.min_distance) = [0.10] ∧
    pickGrasps.map (fun g => g.post_grasp_retreat.desired_distance) = [0.20] ∧
    ∀ trace : Trace, (pick trace).filter Call.isPlanningRequest =
      trace.filter Call.isPlanningRequest ++ [Call.pick "object" pickGrasps] := by
  refine ⟨rfl, rfl, ?_, rfl, rfl, ?_, rfl, rfl, ?_⟩
  · rw [pickGrasps_eq]; norm_num
  · rw [pickGrasps_eq]; norm_num
  · intro trace
    simp [pick_eq, Call.isPlanningRequest]

/-- C4: on a default posture, `openGripper` gives the one joint name
`"gripper_finger1_joint"` and one trajectory point with positions `[0.00]` reached 2.5 s
from the start, and `closedGripper` gives the same except that the positions are `[0.10]`:
the two postures differ in that position value and in nothing else. -/
theorem gripper_postures_on_default :
    (openGripper default).joint_names = ["gripper_finger1_joint"] ∧
    (openGripper default).points =
      [{ positions := [0.00], time_from_start := { sec := 2, nsec := 500000000 } }] ∧
    (closedGripper default).joint_names = ["gripper_finger1_joint"] ∧
    (closedGripper default).points =
      [{ positions := [0.10], time_from_start := { sec := 2, nsec := 500000000 } }] ∧
    Duration.toSec { sec := 2, nsec := 500000000 } = 2.5 ∧
    closedGripper default =
      { openGripper default with
        points := (openGripper default).points.map fun pt => { pt with positions := [0.10] } } ∧
    (0.00 : ℚ) ≠ 0.10 ∧
    openGripper default ≠ closedGripper default := by
  have ho := openGripper_eq default
  have hc := closedGripper_eq default
  rw [fromSec_two_and_a_half] at ho hc
  refine ⟨by rw [ho], ?_, by rw [hc], ?_, ?_, ?_, by norm_num, ?_⟩
  · rw [ho]; rfl
  · rw [hc]; rfl
  · norm_num [Duration.toSec]
  · rw [ho, hc]; rfl
  · rw [ho, hc]
    intro h
    have h2 := congrArg (fun p => p.points.map fun pt => pt.positions) h
    norm_num at h2

/-- C5: each approach and retreat record the program fills in (pre-grasp approach and
post-grasp retreat of `pick`, pre-place approach and post-place retreat of `place`) has a
direction of Euclidean norm exactly 1, a minimal distance that is not negative and a desired
distance that is at least the minimal distance. -/
theorem directedApproaches_wellFormed (env : Env) (a : GripperTranslation)
    (ha : a ∈ directedApproaches env) :
    a.direction.vector.normSq = 1 ∧
    Real.sqrt ((a.direction.vector.normSq : ℚ) : ℝ) = 1 ∧
    0 ≤ a.min_distance ∧
    a.min_distance ≤ a.desired_distance := by
  have hn : a.direction.vector.normSq = 1 ∧ 0 ≤ a.min_distance ∧
      a.min_distance ≤ a.desired_distance := by
    rw [directedApproaches_eq] at ha
    simp only [List.mem_cons, List.mem_singleton, List.not_mem_nil, or_false] at ha
    rcases ha with rfl | rfl | rfl | rfl <;> norm_num [Vector3.normSq]
  refine ⟨hn.1, ?_, hn.2.1, hn.2.2⟩
  rw [hn.1]
  simp

/-- C5, at the pre-place approach of `place` (direction (0, 0, -1), minimal distance 0.095,
desired distance 0.115): the record is one of the four and satisfies the invariant. -/
theorem directedApproaches_wellFormed_witness :
    ({ direction := { header := { frame_id := "wrist_3_link" }, vector := { z := -1.0 } }
       min_distance := 0.095
       desired_distance := 0.115 } : GripperTranslation) ∈ directedApproaches sampleEnv ∧
    (Vector3.normSq { z := -1.0 } = 1 ∧
     Real.sqrt ((Vector3.normSq { z := -1.0 } : ℚ) : ℝ) = 1 ∧
     (0 : ℚ) ≤ 0.095 ∧
     (0.095 : ℚ) ≤ 0.115) :=
  ⟨by simp [directedApproaches_eq],
   directedApproaches_wellFormed sampleEnv
     { direction := { header := { frame_id := "wrist_3_link" }, vector := { z := -1.0 } }
       min_distance := 0.095
       desired_distance := 0.115 }
     (by simp [directedApproaches_eq])⟩

/-- C6: the poses whose orientation is written component by component have a unit
quaternion: the grasp pose of `pick`, (-0.5, 0.5, 0.5, 0.5), and the primitive pose of the
collision object of `addCollisionObjects`, (0, 0, 0, 1), both have squared norm exactly 1. -/
theorem hardcoded_orientations_unit :
    pickGrasps.map (fun g => g.grasp_pose.pose.orientation) =
      [{ x := -0.5, y := 0.5, z := 0.5, w := 0.5 }] ∧
    pickGrasps.map (fun g => g.grasp_pose.pose.orientation.normSq) = [1] ∧
    collisionObjects.map (fun o => o.primitive_poses.map fun p => p.orientation) =
      [[{ x := 0, y := 0, z := 0, w := 1 }]] ∧
    collisionObjects.map (fun o => o.primitive_poses.map fun p => p.orientation.normSq) =
      [[1]] := by
  refine ⟨?_, ?_, ?_, ?_⟩
  · rw [pickGrasps_eq]; norm_num
  · rw [pickGrasps_eq]; norm_num [Quaternion.normSq]
  · rw [collisionObjects_eq]; norm_num
  · rw [collisionObjects_eq]; norm_num [Quaternion.normSq]

/-- C8: `pick` sets the support surface right before it submits the pick request, and the
request is for the object `"object"`, the id of the one collision object that
`addCollisionObjects` adds; but the support surface it sets is
`"mesa_general_sola.dae_0"`, not `"table1"`. -/
theorem pick_support_surface_not_table1 :
    (∀ trace : Trace, pick trace =
      trace ++ [Call.setSupportSurfaceName "mesa_general_sola.dae_0",
                Call.pick "object" pickGrasps]) ∧
    "mesa_general_sola.dae_0" ≠ "table1" ∧
    Call.setSupportSurfaceName "table1" ∉ pick [] ∧
    collisionObjects.map (fun o => o.id) = ["object"] ∧
    ∀ trace : Trace, addCollisionObjects trace =
      trace ++ [Call.applyCollisionObjects collisionObjects] := by
  refine ⟨pick_eq, by decide, ?_, ?_, fun _ => rfl⟩
  · simp [pick_eq]
  · rw [collisionObjects_eq]; rfl

/-- C9: on every run of `main` whose behaviour is defined (the group `"arm"` has the six
joints that `ready` writes), `main` returns 0 and the requests to the planning service are,
in this order, the application of the collision objects, the plan and the move of the ready
pose, and the pick submission; no place request is made. -/
theorem main_requests_in_order (env : Env) (h : 6 ≤ env.jointGroupPositions.length) :
    (main env).map (fun r => r.1.filter Call.isPlanningRequest) =
      some [Call.applyCollisionObjects collisionObjects, Call.plan, Call.move,
            Call.pick "object" pickGrasps] ∧
    (main env).map (fun r => r.1.filter Call.isPlace) = some [] ∧
    (∀ (object : String) (locations : List PlaceLocation),
      (main env).map (fun r => decide (Call.place object locations ∈ r.1)) = some false) ∧
    (main env).map (fun r => r.2) = some 0 := by
  rw [main_eq env h]
  refine ⟨?_, ?_, ?_, rfl⟩
  · simp [Call.isPlanningRequest]
  · simp [Call.isPlace]
  · intro object locations
    simp

/-- C9, on a run with six joints at zero: the run is defined, and its planning requests are
the four of the claim, in order, with no place request. -/
theorem main_requests_in_order_witness :
    6 ≤ sampleEnv.jointGroupPositions.length ∧
    ((main sampleEnv).map (fun r => r.1.filter Call.isPlanningRequest) =
      some [Call.applyCollisionObjects collisionObjects, Call.plan, Call.move,
            Call.pick "object" pickGrasps] ∧
    (main sampleEnv).map (fun r => r.1.filter Call.isPlace) = some [] ∧
    (∀ (object : String) (locations : List PlaceLocation),
      (main sampleEnv).map (fun r => decide (Call.place object locations ∈ r.1)) =
        some false) ∧
    (main sampleEnv).map (fun r => r.2) = some 0) :=
  ⟨by decide, main_requests_in_order sampleEnv (by decide)⟩

/-- C10: the gripper helpers overwrite and do not accumulate. On every posture, whatever
joint names, points and positions it had, the result of `openGripper` has the joint names
`["gripper_finger1_joint"]` and one point with positions `[0.00]` at 2.5 s, and the result of
`closedGripper` has the same with positions `[0.10]`; so each helper is idempotent, the later
of two helper calls wins, and the result has exactly one joint name, one point and one
position. The header and the first point's velocities, accelerations and effort are those of
the input (those of a value-initialised point when the input has no point). -/
theorem gripper_helpers_overwrite (p : JointTrajectory) :
    openGripper (openGripper p) = openGripper p ∧
    closedGripper (closedGripper p) = closedGripper p ∧
    closedGripper (openGripper p) = closedGripper p ∧
    openGripper (closedGripper p) = openGripper p ∧
    (openGripper p).joint_names.length = 1 ∧
    (closedGripper p).joint_names.length = 1 ∧
    (openGripper p).points.map (fun pt => pt.positions.length) = [1] ∧
    (closedGripper p).points.map (fun pt => pt.positions.length) = [1] ∧
    (openGripper p).header = p.header ∧
    (closedGripper p).header = p.header ∧
    (openGripper p).points.map (fun pt => (pt.velocities, pt.accelerations, pt.effort)) =
      [((p.points.headD default).velocities, (p.points.headD default).accelerations,
        (p.points.headD default).effort)] ∧
    (closedGripper p).points.map (fun pt => (pt.velocities, pt.accelerations, pt.effort)) =
      [((p.points.headD default).velocities, (p.points.headD default).accelerations,
        (p.points.headD default).effort)] ∧
    (openGripper p).joint_names = ["gripper_finger1_joint"] ∧
    (closedGripper p).joint_names = ["gripper_finger1_joint"] ∧
    (openGripper p).points.map (fun pt => pt.positions) = [[0.00]] ∧
    (closedGripper p).points.map (fun pt => pt.positions) = [[0.10]] ∧
    (openGripper p).points.map (fun pt => pt.time_from_start) =
      [{ sec := 2, nsec := 500000000 }] ∧
    (closedGripper p).points.map (fun pt => pt.time_from_start) =
      [{ sec := 2, nsec := 500000000 }] := by
  refine ⟨?_, ?_, ?_, ?_, ?_, ?_, ?_, ?_, ?_, ?_, ?_, ?_, ?_, ?_, ?_, ?_, ?_, ?_⟩ <;>
    simp [openGripper_eq, closedGripper_eq, fromSec_two_and_a_half]

/-- The helpers on a posture with two joint names and two points of several positions: the
names and positions of the input are gone from the results, its velocities are kept. -/
theorem gripper_helpers_overwrite_on_filled_posture :
    openGripper
        { header := { frame_id := "tool0" }
          joint_names := ["a", "b"]
          points := [{ positions := [1, 2, 3], velocities := [4] }, { positions := [5] }] } =
      { header := { frame_id := "tool0" }
        joint_names := ["gripper_finger1_joint"]
        points := [{ positions := [0.00], velocities := [4]
                     time_from_start := { sec := 2, nsec := 500000000 } }] } ∧
    closedGripper
        { header := { frame_id := "tool0" }
          joint_names := ["a", "b"]
          points := [{ positions := [1, 2, 3], velocities := [4] }, { positions := [5] }] } =
      { header := { frame_id := "tool0" }
        joint_names := ["gripper_finger1_joint"]
        points := [{ positions := [0.10], velocities := [4]
                     time_from_start := { sec := 2, nsec := 500000000 } }] } := by
  constructor
  · rw [openGripper_eq, fromSec_two_and_a_half]; rfl
  · rw [closedGripper_eq, fromSec_two_and_a_half]; rfl

end PickPlace
